import Mathlib

/-!
Shallow embedding of `modules/sfp_virustotal.py` (SpiderFoot VirusTotal
plugin).  The plugin's external collaborators (the network fetcher, the JSON
parser, DNS resolution, target matching, netblock expansion, the scanner's
stop signal) are modelled as an abstract environment `Env`; the plugin's
mutable members (`self.results`, `self.errorState`) together with observable
traces of its side effects (fetches performed, 15-second sleeps, events
emitted via `notifyListeners`) form `PluginState`.
-/

namespace SfpVirustotal

/-- A SpiderFoot event as far as this module observes or produces it:
an event type string and a data string. -/
structure SFEvent where
  eventType : String
  data : String
deriving Repr, DecidableEq

/-- The fields of a parsed VirusTotal JSON response that the module reads:
`info.get('detected_urls', [])` (missing field defaults to the empty list),
and the optional `domain_siblings` / `subdomains` lists. -/
structure VTInfo where
  detected_urls : List String
  domain_siblings : Option (List String)
  subdomains : Option (List String)
deriving Repr, DecidableEq

/-- The module options read by `query` / `handleEvent`
(defaults in the source: api_key = "", verify = true, publicapi = true,
checkcohosts = true, checkaffiliates = true, netblocklookup = true,
maxnetblock = 24, subnetlookup = true, maxsubnet = 24). -/
structure Opts where
  api_key : String
  verify : Bool
  publicapi : Bool
  checkcohosts : Bool
  checkaffiliates : Bool
  netblocklookup : Bool
  maxnetblock : Nat
  subnetlookup : Bool
  maxsubnet : Nat
deriving Repr, DecidableEq

/-- The external world: `sf.validIP`, `sf.fetchUrl` (its `content` field,
keyed by the queried value, which determines the URL), `json.loads`
(successful parse into the fields the module reads, or failure),
`sf.resolveHost`, `getTarget().matches`, `sf.isDomain`,
`IPNetwork(x).prefixlen`, iteration over `IPNetwork(x)`, and
`checkForStop` as a function of how many query-loop iterations have run. -/
structure Env where
  validIP : String → Bool
  fetchContent : String → Option String
  parseJSON : String → Option VTInfo
  resolveHost : String → Bool
  targetMatches : String → Bool
  isDomain : String → Bool
  prefixlen : String → Nat
  netMembers : String → List String
  checkForStop : Nat → Bool

/-- The module's mutable state plus traces of its observable effects.
`results` is the per-scan seen-set (`self.results`), `errorState` is
`self.errorState`, `fetchTrace` records each value passed to `sf.fetchUrl`
in order, `slept` counts the 15-second public-API sleeps, `emitted` records
each event passed to `notifyListeners` in order, and `tick` counts
query-loop iterations (the argument of `Env.checkForStop`). -/
structure PluginState where
  results : List String
  errorState : Bool
  fetchTrace : List String
  slept : Nat
  emitted : List SFEvent
  tick : Nat
deriving Repr, DecidableEq

/-- The state of a freshly set-up module: empty seen-set, no error. -/
def initState : PluginState :=
  { results := [], errorState := false, fetchTrace := [], slept := 0,
    emitted := [], tick := 0 }

/-- `watchedEvents` from the source. -/
def watchedEvents : List String :=
  ["IP_ADDRESS", "AFFILIATE_IPADDR", "INTERNET_NAME",
   "CO_HOSTED_SITE", "NETBLOCK_OWNER", "NETBLOCK_MEMBER"]

/-- `producedEvents` from the source. -/
def producedEvents : List String :=
  ["MALICIOUS_IPADDR", "MALICIOUS_INTERNET_NAME",
   "MALICIOUS_COHOST", "MALICIOUS_AFFILIATE_INTERNET_NAME",
   "MALICIOUS_AFFILIATE_IPADDR", "MALICIOUS_NETBLOCK",
   "MALICIOUS_SUBNET", "INTERNET_NAME", "AFFILIATE_INTERNET_NAME",
   "INTERNET_NAME_UNRESOLVED", "DOMAIN_NAME"]

/-- Python's `s.startswith(p)`: the characters of `p` are a prefix of the
characters of `s`. -/
def strStartsWith (s p : String) : Bool :=
  p.data.isPrefixOf s.data

/-- Append one event to the `notifyListeners` trace. -/
def emit (st : PluginState) (e : SFEvent) : PluginState :=
  { st with emitted := st.emitted ++ [e] }

/-- The URL built by `query` for a value `qry` (ip-address report when
`sf.validIP(qry)`, domain report otherwise, with the API key appended). -/
def queryUrl (env : Env) (opts : Opts) (qry : String) : String :=
  (if env.validIP qry then
    "https://www.virustotal.com/vtapi/v2/ip-address/report?ip=" ++ qry
   else
    "https://www.virustotal.com/vtapi/v2/domain/report?domain=" ++ qry)
  ++ "&apikey=" ++ opts.api_key

/-- `sfp_virustotal.query`: fetch the report URL for `qry` (recorded in
`fetchTrace`), sleep 15 seconds when `publicapi` is set (recorded in
`slept`), return `none` when the fetch had no content, set `errorState`
and return `none` when the content does not parse as JSON, otherwise
return the parsed info. -/
def query (env : Env) (opts : Opts) (st : PluginState) (qry : String) :
    Option VTInfo × PluginState :=
  let st1 := { st with fetchTrace := st.fetchTrace ++ [qry] }
  let st2 := if opts.publicapi then { st1 with slept := st1.slept + 1 } else st1
  match env.fetchContent qry with
  | none => (none, st2)
  | some content =>
    match env.parseJSON content with
    | none => (none, { st2 with errorState := true })
    | some info => (some info, st2)

/-- The event type and info-URL kind chosen by the chain of `if` statements
in `handleEvent` when `detected_urls` is non-empty.  The chain assigns for
`IP_ADDRESS` and for names starting with `NETBLOCK_`, then for the four
other literal names; `none` models the Python `NameError` that would occur
if no branch assigned `evt`. -/
def maliciousEvt (eventName : String) : Option (String × String) :=
  let r : Option (String × String) := none
  let r := if eventName ∈ ["IP_ADDRESS"] ∨ strStartsWith eventName "NETBLOCK_" then
    some ("MALICIOUS_IPADDR", "ip-address") else r
  let r := if eventName = "AFFILIATE_IPADDR" then
    some ("MALICIOUS_AFFILIATE_IPADDR", "ip-address") else r
  let r := if eventName = "INTERNET_NAME" then
    some ("MALICIOUS_INTERNET_NAME", "domain") else r
  let r := if eventName = "AFFILIATE_INTERNET_NAME" then
    some ("MALICIOUS_AFFILIATE_INTERNET_NAME", "domain") else r
  let r := if eventName = "CO_HOSTED_SITE" then
    some ("MALICIOUS_COHOST", "domain") else r
  r

/-- The data string of a malicious-indicator event for `addr` with info-URL
kind `infotype`. -/
def vtMsg (infotype addr : String) : String :=
  "VirusTotal [" ++ addr ++ "]\n" ++
    "<SFURL>https://www.virustotal.com/en/" ++ infotype ++ "/" ++ addr ++
    "/information/</SFURL>"

/-- The body of the `domain_siblings` loop for one sibling `s`:
siblings matching the target and not in the seen-set get
`INTERNET_NAME` / `INTERNET_NAME_UNRESOLVED` (only under `verify`)
plus `DOMAIN_NAME` when registered; non-matching siblings not in the
seen-set get `AFFILIATE_INTERNET_NAME`. -/
def processSibling (env : Env) (opts : Opts) (st : PluginState)
    (s : String) : PluginState :=
  if env.targetMatches s then
    if s ∈ st.results then st
    else
      let st1 :=
        if opts.verify then
          if ¬ env.resolveHost s then emit st ⟨"INTERNET_NAME_UNRESOLVED", s⟩
          else emit st ⟨"INTERNET_NAME", s⟩
        else st
      if env.isDomain s then emit st1 ⟨"DOMAIN_NAME", s⟩ else st1
  else
    if s ∈ st.results then st
    else emit st ⟨"AFFILIATE_INTERNET_NAME", s⟩

/-- The body of the `subdomains` loop for one subdomain `n`: when not in
the seen-set, under `verify` emit `INTERNET_NAME_UNRESOLVED` only if it
does not resolve (nothing when it does), without `verify` emit
`INTERNET_NAME`; in either case add `DOMAIN_NAME` when registered. -/
def processSubdomain (env : Env) (opts : Opts) (st : PluginState)
    (n : String) : PluginState :=
  if n ∈ st.results then st
  else
    let st1 :=
      if opts.verify then
        if ¬ env.resolveHost n then emit st ⟨"INTERNET_NAME_UNRESOLVED", n⟩
        else st
      else emit st ⟨"INTERNET_NAME", n⟩
    if env.isDomain n then emit st1 ⟨"DOMAIN_NAME", n⟩ else st1

/-- One iteration of the `for addr in qrylist` loop after the stop check:
query the address; on `None` fall through (`continue`); otherwise emit the
malicious-indicator event when `detected_urls` is non-empty, then process
`domain_siblings` (for `IP_ADDRESS` / `INTERNET_NAME` inputs) and
`subdomains` (for `INTERNET_NAME` inputs). -/
def processAddr (env : Env) (opts : Opts) (eventName : String)
    (st : PluginState) (addr : String) : PluginState :=
  match query env opts st addr with
  | (none, st1) => st1
  | (some info, st1) =>
    let st2 :=
      if info.detected_urls.length > 0 then
        match maliciousEvt eventName with
        | some (evt, infotype) => emit st1 ⟨evt, vtMsg infotype addr⟩
        | none => st1
      else st1
    let st3 :=
      match info.domain_siblings with
      | some sibs =>
        if eventName ∈ ["IP_ADDRESS", "INTERNET_NAME"] then
          sibs.foldl (processSibling env opts) st2
        else st2
      | none => st2
    match info.subdomains with
    | some subs =>
      if eventName = "INTERNET_NAME" then
        subs.foldl (processSubdomain env opts) st3
      else st3
    | none => st3

/-- The `for addr in qrylist` loop: each iteration first consults
`checkForStop` (returning early from `handleEvent` when set, with the
`tick` counter advancing per iteration), then runs `processAddr`. -/
def queryLoop (env : Env) (opts : Opts) (eventName : String) :
    PluginState → List String → PluginState
  | st, [] => st
  | st, addr :: rest =>
    if env.checkForStop st.tick then st
    else
      queryLoop env opts eventName
        (processAddr env opts eventName { st with tick := st.tick + 1 } addr)
        rest

/-- `sfp_virustotal.handleEvent`: error-state gate, API-key check, seen-set
deduplication on the event data, affiliate / co-host / netblock option and
size gates, netblock expansion (members are inserted into the seen-set as
the query list is built), then the query loop. -/
def handleEvent (env : Env) (opts : Opts) (st : PluginState)
    (event : SFEvent) : PluginState :=
  let eventName := event.eventType
  let eventData := event.data
  if st.errorState then st
  else if opts.api_key = "" then { st with errorState := true }
  else if eventData ∈ st.results then st
  else
    let st := { st with results := st.results ++ [eventData] }
    if strStartsWith eventName "AFFILIATE" ∧ ¬ opts.checkaffiliates then st
    else if eventName = "CO_HOSTED_SITE" ∧ ¬ opts.checkcohosts then st
    else if eventName = "NETBLOCK_OWNER" ∧ ¬ opts.netblocklookup then st
    else if eventName = "NETBLOCK_OWNER" ∧
        env.prefixlen eventData < opts.maxnetblock then st
    else if eventName = "NETBLOCK_MEMBER" ∧ ¬ opts.subnetlookup then st
    else if eventName = "NETBLOCK_MEMBER" ∧
        env.prefixlen eventData < opts.maxsubnet then st
    else
      let qrylist :=
        if strStartsWith eventName "NETBLOCK_" then env.netMembers eventData
        else [eventData]
      let st :=
        if strStartsWith eventName "NETBLOCK_" then
          { st with results := st.results ++ env.netMembers eventData }
        else st
      queryLoop env opts eventName st qrylist

/-- A scan run delivering a list of events to the module in order. -/
def runEvents (env : Env) (opts : Opts) (st : PluginState)
    (evs : List SFEvent) : PluginState :=
  evs.foldl (handleEvent env opts) st

/-- Is this event a malicious-indicator event? -/
def isMalicious (e : SFEvent) : Bool :=
  strStartsWith e.eventType "MALICIOUS_"

/-- The list of events the `domain_siblings` loop body emits for one
sibling `s` against a given seen-set. -/
def siblingEvents (env : Env) (opts : Opts) (results : List String)
    (s : String) : List SFEvent :=
  if env.targetMatches s then
    if s ∈ results then []
    else
      (if opts.verify then
        if ¬ env.resolveHost s then [⟨"INTERNET_NAME_UNRESOLVED", s⟩]
        else [⟨"INTERNET_NAME", s⟩]
       else []) ++
      (if env.isDomain s then [⟨"DOMAIN_NAME", s⟩] else [])
  else
    if s ∈ results then [] else [⟨"AFFILIATE_INTERNET_NAME", s⟩]

/-- The list of events the `subdomains` loop body emits for one
subdomain `n` against a given seen-set. -/
def subdomainEvents (env : Env) (opts : Opts) (results : List String)
    (n : String) : List SFEvent :=
  if n ∈ results then []
  else
    (if opts.verify then
      if ¬ env.resolveHost n then [⟨"INTERNET_NAME_UNRESOLVED", n⟩] else []
     else [⟨"INTERNET_NAME", n⟩]) ++
    (if env.isDomain n then [⟨"DOMAIN_NAME", n⟩] else [])

lemma processSibling_eq (env : Env) (opts : Opts) (st : PluginState)
    (s : String) :
    processSibling env opts st s =
      { st with emitted := st.emitted ++ siblingEvents env opts st.results s } := by
  unfold processSibling siblingEvents emit
  split
  · split
    · simp
    · split
      · split <;> split <;> simp
      · split <;> simp
  · split <;> simp

lemma processSubdomain_eq (env : Env) (opts : Opts) (st : PluginState)
    (n : String) :
    processSubdomain env opts st n =
      { st with emitted := st.emitted ++ subdomainEvents env opts st.results n } := by
  unfold processSubdomain subdomainEvents emit
  split
  · simp
  · split
    · split <;> split <;> simp
    · split <;> simp

lemma isMalicious_mk (t d : String) :
    isMalicious ⟨t, d⟩ = strStartsWith t "MALICIOUS_" := rfl

lemma siblingEvents_not_malicious (env : Env) (opts : Opts)
    (results : List String) (s : String) :
    ∀ e ∈ siblingEvents env opts results s, isMalicious e = false := by
  intro e he
  unfold siblingEvents at he
  split at he
  · split at he
    · simp at he
    · rcases List.mem_append.1 he with h | h
      · split at h
        · split at h <;> (simp at h; subst h; simp only [isMalicious_mk]; decide)
        · simp at h
      · split at h
        · simp at h
          subst h
          simp only [isMalicious_mk]
          decide
        · simp at h
  · split at he
    · simp at he
    · simp at he
      subst he
      simp only [isMalicious_mk]
      decide

lemma subdomainEvents_not_malicious (env : Env) (opts : Opts)
    (results : List String) (n : String) :
    ∀ e ∈ subdomainEvents env opts results n, isMalicious e = false := by
  intro e he
  unfold subdomainEvents at he
  split at he
  · simp at he
  · rcases List.mem_append.1 he with h | h
    · split at h
      · split at h
        · simp at h
          subst h
          simp only [isMalicious_mk]
          decide
        · simp at h
      · simp at h
        subst h
        simp only [isMalicious_mk]
        decide
    · split at h
      · simp at h
        subst h
        simp only [isMalicious_mk]
        decide
      · simp at h

lemma siblingFold_eq (env : Env) (opts : Opts) :
    ∀ (sibs : List String) (st : PluginState),
      sibs.foldl (processSibling env opts) st =
        { st with emitted :=
            st.emitted ++ (sibs.map (siblingEvents env opts st.results)).flatten }
  | [], st => by simp
  | s :: rest, st => by
    rw [List.foldl_cons, processSibling_eq, siblingFold_eq env opts rest]
    simp

lemma subdomainFold_eq (env : Env) (opts : Opts) :
    ∀ (subs : List String) (st : PluginState),
      subs.foldl (processSubdomain env opts) st =
        { st with emitted :=
            st.emitted ++ (subs.map (subdomainEvents env opts st.results)).flatten }
  | [], st => by simp
  | n :: rest, st => by
    rw [List.foldl_cons, processSubdomain_eq, subdomainFold_eq env opts rest]
    simp


lemma query_snd_fields (env : Env) (opts : Opts) (st : PluginState)
    (q : String) :
    ((query env opts st q).2).results = st.results ∧
    ((query env opts st q).2).emitted = st.emitted ∧
    ((query env opts st q).2).tick = st.tick ∧
    ((query env opts st q).2).fetchTrace = st.fetchTrace ++ [q] ∧
    ((query env opts st q).2).slept
      = st.slept + (if opts.publicapi then 1 else 0) := by
  cases hf : env.fetchContent q with
  | none => cases hb : opts.publicapi <;> simp [query, hf, hb]
  | some c =>
    cases hp : env.parseJSON c <;> cases hb : opts.publicapi <;>
      simp [query, hf, hp, hb]

lemma query_errorState_of_fetch_none (env : Env) (opts : Opts)
    (st : PluginState) (q : String) (h : env.fetchContent q = none) :
    (query env opts st q).1 = none ∧
    ((query env opts st q).2).errorState = st.errorState := by
  cases hb : opts.publicapi <;> simp [query, h, hb]

lemma query_of_parse_fail (env : Env) (opts : Opts) (st : PluginState)
    (q c : String) (hf : env.fetchContent q = some c)
    (hp : env.parseJSON c = none) :
    (query env opts st q).1 = none ∧
    ((query env opts st q).2).errorState = true := by
  cases hb : opts.publicapi <;> simp [query, hf, hp, hb]

lemma query_of_ok (env : Env) (opts : Opts) (st : PluginState)
    (q c : String) (info : VTInfo) (hf : env.fetchContent q = some c)
    (hp : env.parseJSON c = some info) :
    (query env opts st q).1 = some info ∧
    ((query env opts st q).2).errorState = st.errorState := by
  cases hb : opts.publicapi <;> simp [query, hf, hp, hb]

lemma query_errorState_mono (env : Env) (opts : Opts) (st : PluginState)
    (q : String) (h : st.errorState = true) :
    ((query env opts st q).2).errorState = true := by
  cases hf : env.fetchContent q with
  | none => cases hb : opts.publicapi <;> simp [query, hf, hb, h]
  | some c =>
    cases hp : env.parseJSON c <;> cases hb : opts.publicapi <;>
      simp [query, hf, hp, hb, h]

lemma processAddr_fields (env : Env) (opts : Opts) (eventName : String)
    (st : PluginState) (addr : String) :
    (processAddr env opts eventName st addr).results = st.results ∧
    (processAddr env opts eventName st addr).tick = st.tick ∧
    (processAddr env opts eventName st addr).fetchTrace
      = st.fetchTrace ++ [addr] ∧
    (processAddr env opts eventName st addr).slept
      = st.slept + (if opts.publicapi then 1 else 0) ∧
    (processAddr env opts eventName st addr).errorState
      = ((query env opts st addr).2).errorState := by
  unfold processAddr
  obtain ⟨h1, h2, h3, h4, h5⟩ := query_snd_fields env opts st addr
  cases hq : query env opts st addr with
  | mk info? st1 =>
    rw [hq] at h1 h2 h3 h4 h5
    dsimp at h1 h2 h3 h4 h5 ⊢
    cases info? with
    | none => simp [h1, h2, h3, h4, h5]
    | some info =>
      dsimp
      set st2 := if info.detected_urls.length > 0 then
        match maliciousEvt eventName with
        | some (evt, infotype) => emit st1 ⟨evt, vtMsg infotype addr⟩
        | none => st1
        else st1 with hst2
      have e2 : st2.results = st1.results ∧ st2.tick = st1.tick ∧
          st2.fetchTrace = st1.fetchTrace ∧ st2.slept = st1.slept ∧
          st2.errorState = st1.errorState := by
        rw [hst2]
        split
        · cases maliciousEvt eventName with
          | none => simp
          | some p => cases p with | mk a b => simp [emit]
        · simp
      obtain ⟨e2a, e2b, e2c, e2d, e2e⟩ := e2
      set st3 := match info.domain_siblings with
        | some sibs =>
          if eventName ∈ ["IP_ADDRESS", "INTERNET_NAME"] then
            sibs.foldl (processSibling env opts) st2
          else st2
        | none => st2 with hst3
      have e3 : st3.results = st2.results ∧ st3.tick = st2.tick ∧
          st3.fetchTrace = st2.fetchTrace ∧ st3.slept = st2.slept ∧
          st3.errorState = st2.errorState := by
        rw [hst3]
        cases info.domain_siblings with
        | none => simp
        | some sibs =>
          dsimp
          split
          · rw [siblingFold_eq]
            simp
          · simp
      obtain ⟨e3a, e3b, e3c, e3d, e3e⟩ := e3
      cases info.subdomains with
      | none => dsimp; rw [e3a, e3b, e3c, e3d, e3e, e2a, e2b, e2c, e2d, e2e]
                exact ⟨h1, h3, h4, h5, rfl⟩
      | some subs =>
        dsimp
        split
        · rw [subdomainFold_eq]
          dsimp
          rw [e3a, e3b, e3c, e3d, e3e, e2a, e2b, e2c, e2d, e2e]
          exact ⟨h1, h3, h4, h5, rfl⟩
        · rw [e3a, e3b, e3c, e3d, e3e, e2a, e2b, e2c, e2d, e2e]
          exact ⟨h1, h3, h4, h5, rfl⟩


lemma query_eq_of_ok (env : Env) (opts : Opts) (st : PluginState)
    (q c : String) (info : VTInfo) (hf : env.fetchContent q = some c)
    (hp : env.parseJSON c = some info) :
    query env opts st q =
      (some info,
       { st with fetchTrace := st.fetchTrace ++ [q],
                 slept := st.slept + (if opts.publicapi then 1 else 0) }) := by
  cases hb : opts.publicapi <;> simp [query, hf, hp, hb]

/-- The malicious-indicator events one loop iteration emits for `addr`. -/
def malEvents (eventName addr : String) (info : VTInfo) : List SFEvent :=
  if info.detected_urls.length > 0 then
    match maliciousEvt eventName with
    | some (evt, infotype) => [⟨evt, vtMsg infotype addr⟩]
    | none => []
  else []

/-- The events the `domain_siblings` block emits in one loop iteration. -/
def sibEventsAll (env : Env) (opts : Opts) (eventName : String)
    (results : List String) (info : VTInfo) : List SFEvent :=
  match info.domain_siblings with
  | some sibs =>
    if eventName ∈ ["IP_ADDRESS", "INTERNET_NAME"] then
      (sibs.map (siblingEvents env opts results)).flatten
    else []
  | none => []

/-- The events the `subdomains` block emits in one loop iteration. -/
def subEventsAll (env : Env) (opts : Opts) (eventName : String)
    (results : List String) (info : VTInfo) : List SFEvent :=
  match info.subdomains with
  | some subs =>
    if eventName = "INTERNET_NAME" then
      (subs.map (subdomainEvents env opts results)).flatten
    else []
  | none => []

lemma processAddr_eq_of_ok (env : Env) (opts : Opts) (eventName : String)
    (st : PluginState) (addr c : String) (info : VTInfo)
    (hf : env.fetchContent addr = some c)
    (hp : env.parseJSON c = some info) :
    processAddr env opts eventName st addr =
      { st with
        fetchTrace := st.fetchTrace ++ [addr],
        slept := st.slept + (if opts.publicapi then 1 else 0),
        emitted := st.emitted ++ malEvents eventName addr info
          ++ sibEventsAll env opts eventName st.results info
          ++ subEventsAll env opts eventName st.results info } := by
  unfold processAddr
  rw [query_eq_of_ok env opts st addr c info hf hp]
  dsimp only
  set st1 : PluginState :=
    { st with fetchTrace := st.fetchTrace ++ [addr],
              slept := st.slept + (if opts.publicapi then 1 else 0) } with hst1
  set st2 := if info.detected_urls.length > 0 then
      match maliciousEvt eventName with
      | some (evt, infotype) => emit st1 ⟨evt, vtMsg infotype addr⟩
      | none => st1
    else st1 with hst2
  have e2 : st2 = { st1 with emitted := st1.emitted ++ malEvents eventName addr info } := by
    rw [hst2]
    unfold malEvents
    split
    · cases hm : maliciousEvt eventName with
      | none => simp
      | some p => cases p with | mk a b => simp [emit]
    · simp
  set st3 := match info.domain_siblings with
    | some sibs =>
      if eventName ∈ ["IP_ADDRESS", "INTERNET_NAME"] then
        sibs.foldl (processSibling env opts) st2
      else st2
    | none => st2 with hst3
  have e3 : st3 = { st2 with emitted :=
      st2.emitted ++ sibEventsAll env opts eventName st2.results info } := by
    rw [hst3]
    unfold sibEventsAll
    cases hsib : info.domain_siblings with
    | none => simp
    | some sibs =>
      dsimp only
      split
      · rw [siblingFold_eq]
      · simp
  cases hsub : info.subdomains with
  | none =>
    dsimp only
    rw [e3, e2]
    unfold subEventsAll
    rw [hsub]
    simp
  | some subs =>
    dsimp only
    split
    · rw [subdomainFold_eq, e3, e2]
      unfold subEventsAll
      rw [hsub]
      simp_all
    · rw [e3, e2]
      unfold subEventsAll
      rw [hsub]
      simp_all


lemma maliciousEvt_malicious (eventName evt it : String)
    (h : maliciousEvt eventName = some (evt, it)) :
    strStartsWith evt "MALICIOUS_" = true := by
  unfold maliciousEvt at h
  dsimp only at h
  split at h
  · simp at h
    rcases h with ⟨rfl, rfl⟩
    decide
  · split at h
    · simp at h
      rcases h with ⟨rfl, rfl⟩
      decide
    · split at h
      · simp at h
        rcases h with ⟨rfl, rfl⟩
        decide
      · split at h
        · simp at h
          rcases h with ⟨rfl, rfl⟩
          decide
        · split at h
          · simp at h
            rcases h with ⟨rfl, rfl⟩
            decide
          · simp at h

/-- Every event type `notifyListeners` can receive from this module. -/
def allowedEmitTypes : List String :=
  ["MALICIOUS_IPADDR", "MALICIOUS_AFFILIATE_IPADDR",
   "MALICIOUS_INTERNET_NAME", "MALICIOUS_AFFILIATE_INTERNET_NAME",
   "MALICIOUS_COHOST", "INTERNET_NAME_UNRESOLVED", "INTERNET_NAME",
   "DOMAIN_NAME", "AFFILIATE_INTERNET_NAME"]

lemma eventType_mk (t d : String) : SFEvent.eventType ⟨t, d⟩ = t := rfl

lemma maliciousEvt_types (eventName evt it : String)
    (h : maliciousEvt eventName = some (evt, it)) :
    evt ∈ allowedEmitTypes := by
  unfold maliciousEvt at h
  dsimp only at h
  split at h
  · simp at h
    rcases h with ⟨rfl, rfl⟩
    decide
  · split at h
    · simp at h
      rcases h with ⟨rfl, rfl⟩
      decide
    · split at h
      · simp at h
        rcases h with ⟨rfl, rfl⟩
        decide
      · split at h
        · simp at h
          rcases h with ⟨rfl, rfl⟩
          decide
        · split at h
          · simp at h
            rcases h with ⟨rfl, rfl⟩
            decide
          · simp at h

lemma malEvents_malicious (eventName addr : String) (info : VTInfo) :
    ∀ e ∈ malEvents eventName addr info, isMalicious e = true := by
  intro e he
  unfold malEvents at he
  split at he
  · cases hm : maliciousEvt eventName with
    | none => rw [hm] at he; simp at he
    | some p =>
      rw [hm] at he
      cases p with
      | mk evt it =>
        simp at he
        subst he
        rw [isMalicious_mk]
        exact maliciousEvt_malicious eventName evt it hm
  · simp at he

lemma malEvents_types (eventName addr : String) (info : VTInfo) :
    ∀ e ∈ malEvents eventName addr info, e.eventType ∈ allowedEmitTypes := by
  intro e he
  unfold malEvents at he
  split at he
  · cases hm : maliciousEvt eventName with
    | none => rw [hm] at he; simp at he
    | some p =>
      rw [hm] at he
      cases p with
      | mk evt it =>
        simp at he
        subst he
        rw [eventType_mk]
        exact maliciousEvt_types eventName evt it hm
  · simp at he

lemma siblingEvents_types (env : Env) (opts : Opts)
    (results : List String) (s : String) :
    ∀ e ∈ siblingEvents env opts results s, e.eventType ∈ allowedEmitTypes := by
  intro e he
  unfold siblingEvents at he
  split at he
  · split at he
    · simp at he
    · rcases List.mem_append.1 he with h | h
      · split at h
        · split at h <;> (simp at h; subst h; simp only [eventType_mk]; decide)
        · simp at h
      · split at h
        · simp at h
          subst h
          simp only [eventType_mk]
          decide
        · simp at h
  · split at he
    · simp at he
    · simp at he
      subst he
      simp only [eventType_mk]
      decide

lemma subdomainEvents_types (env : Env) (opts : Opts)
    (results : List String) (n : String) :
    ∀ e ∈ subdomainEvents env opts results n, e.eventType ∈ allowedEmitTypes := by
  intro e he
  unfold subdomainEvents at he
  split at he
  · simp at he
  · rcases List.mem_append.1 he with h | h
    · split at h
      · split at h
        · simp at h
          subst h
          simp only [eventType_mk]
          decide
        · simp at h
      · simp at h
        subst h
        simp only [eventType_mk]
        decide
    · split at h
      · simp at h
        subst h
        simp only [eventType_mk]
        decide
      · simp at h

lemma sibEventsAll_not_malicious (env : Env) (opts : Opts)
    (eventName : String) (results : List String) (info : VTInfo) :
    ∀ e ∈ sibEventsAll env opts eventName results info,
      isMalicious e = false := by
  intro e he
  unfold sibEventsAll at he
  split at he
  · split at he
    · rcases List.mem_flatten.1 he with ⟨l, hl, hel⟩
      rcases List.mem_map.1 hl with ⟨s, _, rfl⟩
      exact siblingEvents_not_malicious env opts results s e hel
    · simp at he
  · simp at he

lemma subEventsAll_not_malicious (env : Env) (opts : Opts)
    (eventName : String) (results : List String) (info : VTInfo) :
    ∀ e ∈ subEventsAll env opts eventName results info,
      isMalicious e = false := by
  intro e he
  unfold subEventsAll at he
  split at he
  · split at he
    · rcases List.mem_flatten.1 he with ⟨l, hl, hel⟩
      rcases List.mem_map.1 hl with ⟨n, _, rfl⟩
      exact subdomainEvents_not_malicious env opts results n e hel
    · simp at he
  · simp at he

lemma sibEventsAll_types (env : Env) (opts : Opts)
    (eventName : String) (results : List String) (info : VTInfo) :
    ∀ e ∈ sibEventsAll env opts eventName results info,
      e.eventType ∈ allowedEmitTypes := by
  intro e he
  unfold sibEventsAll at he
  split at he
  · split at he
    · rcases List.mem_flatten.1 he with ⟨l, hl, hel⟩
      rcases List.mem_map.1 hl with ⟨s, _, rfl⟩
      exact siblingEvents_types env opts results s e hel
    · simp at he
  · simp at he

lemma subEventsAll_types (env : Env) (opts : Opts)
    (eventName : String) (results : List String) (info : VTInfo) :
    ∀ e ∈ subEventsAll env opts eventName results info,
      e.eventType ∈ allowedEmitTypes := by
  intro e he
  unfold subEventsAll at he
  split at he
  · split at he
    · rcases List.mem_flatten.1 he with ⟨l, hl, hel⟩
      rcases List.mem_map.1 hl with ⟨n, _, rfl⟩
      exact subdomainEvents_types env opts results n e hel
    · simp at he
  · simp at he

lemma processAddr_eq_of_fail (env : Env) (opts : Opts) (eventName : String)
    (st : PluginState) (addr : String)
    (h : (query env opts st addr).1 = none) :
    processAddr env opts eventName st addr = (query env opts st addr).2 := by
  have hq : query env opts st addr = (none, (query env opts st addr).2) := by
    rw [← h]
  unfold processAddr
  rw [hq]

lemma processAddr_filter_malicious_of_ok (env : Env) (opts : Opts)
    (eventName : String) (st : PluginState) (addr c : String) (info : VTInfo)
    (hf : env.fetchContent addr = some c)
    (hp : env.parseJSON c = some info) :
    ((processAddr env opts eventName st addr).emitted).filter isMalicious
      = st.emitted.filter isMalicious ++ malEvents eventName addr info := by
  rw [processAddr_eq_of_ok env opts eventName st addr c info hf hp]
  dsimp only
  rw [List.filter_append, List.filter_append, List.filter_append]
  have hmal : (malEvents eventName addr info).filter isMalicious
      = malEvents eventName addr info :=
    List.filter_eq_self.mpr (fun e he => by
      simp [malEvents_malicious eventName addr info e he])
  have hsib : (sibEventsAll env opts eventName st.results info).filter
      isMalicious = [] := by
    rw [List.filter_eq_nil_iff]
    intro a ha
    simp [sibEventsAll_not_malicious env opts eventName st.results info a ha]
  have hsub : (subEventsAll env opts eventName st.results info).filter
      isMalicious = [] := by
    rw [List.filter_eq_nil_iff]
    intro a ha
    simp [subEventsAll_not_malicious env opts eventName st.results info a ha]
  rw [hmal, hsib, hsub]
  simp

lemma processAddr_errorState_mono (env : Env) (opts : Opts)
    (eventName : String) (st : PluginState) (addr : String)
    (h : st.errorState = true) :
    (processAddr env opts eventName st addr).errorState = true := by
  rw [(processAddr_fields env opts eventName st addr).2.2.2.2]
  exact query_errorState_mono env opts st addr h

lemma queryLoop_results (env : Env) (opts : Opts) (eventName : String) :
    ∀ (l : List String) (st : PluginState),
      (queryLoop env opts eventName st l).results = st.results
  | [], _ => rfl
  | addr :: rest, st => by
    unfold queryLoop
    split
    · rfl
    · rw [queryLoop_results env opts eventName rest _,
        (processAddr_fields _ _ _ _ _).1]

lemma queryLoop_errorState_mono (env : Env) (opts : Opts) (eventName : String) :
    ∀ (l : List String) (st : PluginState), st.errorState = true →
      (queryLoop env opts eventName st l).errorState = true
  | [], _, h => h
  | addr :: rest, st, h => by
    unfold queryLoop
    split
    · exact h
    · exact queryLoop_errorState_mono env opts eventName rest _
        (processAddr_errorState_mono _ _ _ _ _ h)

lemma queryLoop_fetchTrace_nostop (env : Env) (opts : Opts)
    (eventName : String) (hstop : ∀ k, env.checkForStop k = false) :
    ∀ (l : List String) (st : PluginState),
      (queryLoop env opts eventName st l).fetchTrace = st.fetchTrace ++ l
  | [], st => by simp [queryLoop]
  | addr :: rest, st => by
    unfold queryLoop
    rw [if_neg (by simp [hstop])]
    rw [queryLoop_fetchTrace_nostop env opts eventName hstop rest _,
        (processAddr_fields _ _ _ _ _).2.2.1]
    simp

lemma queryLoop_slept_nostop (env : Env) (opts : Opts)
    (eventName : String) (hstop : ∀ k, env.checkForStop k = false) :
    ∀ (l : List String) (st : PluginState),
      (queryLoop env opts eventName st l).slept
        = st.slept + (if opts.publicapi then l.length else 0)
  | [], st => by cases hb : opts.publicapi <;> simp [queryLoop, hb]
  | addr :: rest, st => by
    unfold queryLoop
    rw [if_neg (by simp [hstop])]
    rw [queryLoop_slept_nostop env opts eventName hstop rest _,
        (processAddr_fields _ _ _ _ _).2.2.2.1]
    cases hb : opts.publicapi <;> simp [hb] <;> omega

lemma processAddr_emitted_types (env : Env) (opts : Opts)
    (eventName : String) (st : PluginState) (addr : String) :
    ∀ e ∈ (processAddr env opts eventName st addr).emitted,
      e ∈ st.emitted ∨ e.eventType ∈ allowedEmitTypes := by
  intro e he
  cases hf : env.fetchContent addr with
  | none =>
    rw [processAddr_eq_of_fail env opts eventName st addr
      (query_errorState_of_fetch_none env opts st addr hf).1,
      (query_snd_fields env opts st addr).2.1] at he
    exact Or.inl he
  | some c =>
    cases hp : env.parseJSON c with
    | none =>
      rw [processAddr_eq_of_fail env opts eventName st addr
        (query_of_parse_fail env opts st addr c hf hp).1,
        (query_snd_fields env opts st addr).2.1] at he
      exact Or.inl he
    | some info =>
      rw [processAddr_eq_of_ok env opts eventName st addr c info hf hp] at he
      dsimp only at he
      rcases List.mem_append.1 he with h | h
      · rcases List.mem_append.1 h with h2 | h2
        · rcases List.mem_append.1 h2 with h3 | h3
          · exact Or.inl h3
          · exact Or.inr (malEvents_types eventName addr info e h3)
        · exact Or.inr (sibEventsAll_types env opts eventName st.results info e h2)
      · exact Or.inr (subEventsAll_types env opts eventName st.results info e h)

lemma queryLoop_emitted_types (env : Env) (opts : Opts) (eventName : String) :
    ∀ (l : List String) (st : PluginState),
      ∀ e ∈ (queryLoop env opts eventName st l).emitted,
        e ∈ st.emitted ∨ e.eventType ∈ allowedEmitTypes
  | [], _, _, he => Or.inl he
  | addr :: rest, st, e, he => by
    unfold queryLoop at he
    split at he
    · exact Or.inl he
    · rcases queryLoop_emitted_types env opts eventName rest _ e he with h | h
      · rcases processAddr_emitted_types env opts eventName _ addr e h with h2 | h2
        · exact Or.inl h2
        · exact Or.inr h2
      · exact Or.inr h


lemma handleEvent_of_errorState (env : Env) (opts : Opts) (st : PluginState)
    (ev : SFEvent) (h : st.errorState = true) :
    handleEvent env opts st ev = st := by
  unfold handleEvent
  simp [h]

lemma handleEvent_of_empty_key (env : Env) (opts : Opts) (st : PluginState)
    (ev : SFEvent) (h1 : st.errorState = false) (h2 : opts.api_key = "") :
    handleEvent env opts st ev = { st with errorState := true } := by
  unfold handleEvent
  simp [h1, h2]

lemma handleEvent_of_seen (env : Env) (opts : Opts) (st : PluginState)
    (ev : SFEvent) (h1 : st.errorState = false) (h2 : opts.api_key ≠ "")
    (h3 : ev.data ∈ st.results) :
    handleEvent env opts st ev = st := by
  unfold handleEvent
  simp [h1, h2, h3]

lemma handleEvent_netblock_rejected (env : Env) (opts : Opts)
    (st : PluginState) (ev : SFEvent)
    (h1 : st.errorState = false) (h2 : opts.api_key ≠ "")
    (h3 : ev.data ∉ st.results)
    (h : (ev.eventType = "NETBLOCK_OWNER" ∧ opts.netblocklookup = true ∧
            env.prefixlen ev.data < opts.maxnetblock) ∨
         (ev.eventType = "NETBLOCK_MEMBER" ∧ opts.subnetlookup = true ∧
            env.prefixlen ev.data < opts.maxsubnet)) :
    handleEvent env opts st ev = { st with results := st.results ++ [ev.data] } := by
  unfold handleEvent
  rcases h with ⟨hn, hlk, hsz⟩ | ⟨hn, hlk, hsz⟩ <;>
    simp +decide [h1, h2, h3, hn, hlk, hsz]

lemma handleEvent_netblock_run (env : Env) (opts : Opts)
    (st : PluginState) (ev : SFEvent)
    (h1 : st.errorState = false) (h2 : opts.api_key ≠ "")
    (h3 : ev.data ∉ st.results)
    (h : (ev.eventType = "NETBLOCK_OWNER" ∧ opts.netblocklookup = true ∧
            opts.maxnetblock ≤ env.prefixlen ev.data) ∨
         (ev.eventType = "NETBLOCK_MEMBER" ∧ opts.subnetlookup = true ∧
            opts.maxsubnet ≤ env.prefixlen ev.data)) :
    handleEvent env opts st ev =
      queryLoop env opts ev.eventType
        { st with results := st.results ++ [ev.data] ++ env.netMembers ev.data }
        (env.netMembers ev.data) := by
  unfold handleEvent
  rcases h with ⟨hn, hlk, hsz⟩ | ⟨hn, hlk, hsz⟩ <;>
    simp +decide [h1, h2, h3, hn, hlk, Nat.not_lt.mpr hsz]

lemma handleEvent_single_run (env : Env) (opts : Opts)
    (st : PluginState) (ev : SFEvent)
    (h1 : st.errorState = false) (h2 : opts.api_key ≠ "")
    (h3 : ev.data ∉ st.results)
    (haff : opts.checkaffiliates = true) (hco : opts.checkcohosts = true)
    (hmem : ev.eventType ∈ ["IP_ADDRESS", "AFFILIATE_IPADDR", "INTERNET_NAME",
      "AFFILIATE_INTERNET_NAME", "CO_HOSTED_SITE"]) :
    handleEvent env opts st ev =
      queryLoop env opts ev.eventType
        { st with results := st.results ++ [ev.data] } [ev.data] := by
  unfold handleEvent
  simp only [List.mem_cons, List.mem_singleton, List.not_mem_nil, or_false] at hmem
  rcases hmem with hn | hn | hn | hn | hn <;>
    simp +decide [h1, h2, h3, hn, haff, hco]


/-- Options with an API key set; every other option is the source default. -/
def optsDemo : Opts :=
  { api_key := "k", verify := true, publicapi := true, checkcohosts := true,
    checkaffiliates := true, netblocklookup := true, maxnetblock := 24,
    subnetlookup := true, maxsubnet := 24 }

/-- `optsDemo` with the API key left empty. -/
def optsNoKey : Opts := { optsDemo with api_key := "" }

/-- Concrete world for counterexamples: a /30 netblock with four member
addresses, of which only 10.0.0.1 has a report, and that report carries one
detected URL. -/
def envC1 : Env :=
  { validIP := fun _ => true
    fetchContent := fun q => if q = "10.0.0.1" then some "j" else none
    parseJSON := fun c => if c = "j" then some ⟨["u"], none, none⟩ else none
    resolveHost := fun _ => true
    targetMatches := fun _ => false
    isDomain := fun _ => false
    prefixlen := fun _ => 30
    netMembers := fun q =>
      if q = "10.0.0.0/30" then
        ["10.0.0.0", "10.0.0.1", "10.0.0.2", "10.0.0.3"]
      else []
    checkForStop := fun _ => false }

/-- `envC1` with all fetches returning no content. -/
def envC2 : Env := { envC1 with fetchContent := fun _ => none }

/-- A /31 netblock with two members; the first member's response body does
not parse as JSON, the second member's response parses and carries a
detected URL. -/
def envC4 : Env :=
  { envC1 with
    prefixlen := fun _ => 31
    netMembers := fun q =>
      if q = "10.0.0.0/31" then ["10.0.0.0", "10.0.0.1"] else []
    fetchContent := fun q =>
      if q = "10.0.0.0" then some "bad"
      else if q = "10.0.0.1" then some "j" else none }

/-- C3: with an empty api_key option, handleEvent sets the terminal per-scan
error state and returns with no query and no emission (the state changes only
in errorState), and once the error state is set every handleEvent call
returns immediately with the state unchanged. -/
theorem c3_missing_api_key_halts (env : Env) (opts : Opts) (st : PluginState)
    (ev : SFEvent) (hkey : opts.api_key = "") :
    (st.errorState = false →
      handleEvent env opts st ev = { st with errorState := true }) ∧
    (st.errorState = true → handleEvent env opts st ev = st) :=
  ⟨fun h1 => handleEvent_of_empty_key env opts st ev h1 hkey,
   fun h1 => handleEvent_of_errorState env opts st ev h1⟩

theorem c3_missing_api_key_halts_witness :
    (initState.errorState = false →
      handleEvent envC1 optsNoKey initState ⟨"IP_ADDRESS", "1.2.3.4"⟩
        = { initState with errorState := true }) ∧
    (initState.errorState = true →
      handleEvent envC1 optsNoKey initState ⟨"IP_ADDRESS", "1.2.3.4"⟩
        = initState) :=
  c3_missing_api_key_halts envC1 optsNoKey initState ⟨"IP_ADDRESS", "1.2.3.4"⟩ rfl

/-- C2 is false as stated: in this scan the value 10.0.0.1 is fetched twice,
once for an IP_ADDRESS event and once as an expanded member of a later
NETBLOCK_OWNER event (netblock expansion does not consult the seen-set
before querying). -/
theorem c2_counterexample :
    ((runEvents envC2 optsDemo initState
        [⟨"IP_ADDRESS", "10.0.0.1"⟩, ⟨"NETBLOCK_OWNER", "10.0.0.0/30"⟩]).fetchTrace.count
          "10.0.0.1") = 2 := by decide

/-- C2 (amended): deduplication applies to the incoming event data: once a
value is in the per-scan seen-set, a later event carrying that value as its
event data is skipped with no query, no emission and no state change.
(Members of an expanded netblock are nevertheless queried without consulting
the seen-set, so a value can still be fetched twice in one scan.) -/
theorem c2_seen_event_data_not_requeried (env : Env) (opts : Opts)
    (st : PluginState) (ev : SFEvent)
    (h1 : st.errorState = false) (h2 : opts.api_key ≠ "")
    (h3 : ev.data ∈ st.results) :
    handleEvent env opts st ev = st :=
  handleEvent_of_seen env opts st ev h1 h2 h3

theorem c2_seen_event_data_not_requeried_witness :
    handleEvent envC2 optsDemo
      { initState with results := ["10.0.0.1"] } ⟨"IP_ADDRESS", "10.0.0.1"⟩
      = { initState with results := ["10.0.0.1"] } :=
  c2_seen_event_data_not_requeried envC2 optsDemo
    { initState with results := ["10.0.0.1"] } ⟨"IP_ADDRESS", "10.0.0.1"⟩
    rfl (by decide) (by decide)

/-- C4 is false as stated: the first member of the /31 returns a body that
does not parse as JSON (setting the error state), yet the second member of
the same query list is still fetched and still emits a malicious event. -/
theorem c4_counterexample :
    envC4.fetchContent "10.0.0.0" = some "bad" ∧
    envC4.parseJSON "bad" = none ∧
    (handleEvent envC4 optsDemo initState
        ⟨"NETBLOCK_OWNER", "10.0.0.0/31"⟩).errorState = true ∧
    (handleEvent envC4 optsDemo initState
        ⟨"NETBLOCK_OWNER", "10.0.0.0/31"⟩).fetchTrace
      = ["10.0.0.0", "10.0.0.1"] ∧
    (handleEvent envC4 optsDemo initState
        ⟨"NETBLOCK_OWNER", "10.0.0.0/31"⟩).emitted.map SFEvent.eventType
      = ["MALICIOUS_IPADDR"] := by decide

/-- C4 (amended): a fetched body that does not parse as JSON makes query
return None with the terminal error state set, and every handleEvent call
made in the error state returns immediately; the remaining values of the
query list of the invocation that hit the malformed response are however
still queried and may still emit. -/
theorem c4_malformed_json_error_state (env : Env) (opts : Opts)
    (st : PluginState) (q c : String)
    (hf : env.fetchContent q = some c) (hp : env.parseJSON c = none) :
    (query env opts st q).1 = none ∧
    ((query env opts st q).2).errorState = true ∧
    (∀ (st2 : PluginState) (ev2 : SFEvent), st2.errorState = true →
      handleEvent env opts st2 ev2 = st2) :=
  ⟨(query_of_parse_fail env opts st q c hf hp).1,
   (query_of_parse_fail env opts st q c hf hp).2,
   fun st2 ev2 h => handleEvent_of_errorState env opts st2 ev2 h⟩

theorem c4_malformed_json_error_state_witness :
    (query envC4 optsDemo initState "10.0.0.0").1 = none ∧
    ((query envC4 optsDemo initState "10.0.0.0").2).errorState = true ∧
    (∀ (st2 : PluginState) (ev2 : SFEvent), st2.errorState = true →
      handleEvent envC4 optsDemo st2 ev2 = st2) :=
  c4_malformed_json_error_state envC4 optsDemo initState "10.0.0.0" "bad"
    (by decide) (by decide)

/-- C6: a fetch with no content makes query return None with the error state
and the emission trace untouched, and the query loop still visits every value
of its list exactly once: the failed value is skipped and never fetched
again. -/
theorem c6_transient_fetch_failure (env : Env) (opts : Opts)
    (st : PluginState) (q : String) (eventName : String) (l : List String)
    (hf : env.fetchContent q = none) :
    ((query env opts st q).1 = none ∧
     ((query env opts st q).2).errorState = st.errorState ∧
     ((query env opts st q).2).emitted = st.emitted) ∧
    ((∀ k, env.checkForStop k = false) →
      (queryLoop env opts eventName st l).fetchTrace = st.fetchTrace ++ l ∧
      (l.Nodup → q ∉ st.fetchTrace →
        (queryLoop env opts eventName st l).fetchTrace.count q
          = if q ∈ l then 1 else 0)) := by
  refine ⟨⟨(query_errorState_of_fetch_none env opts st q hf).1,
    (query_errorState_of_fetch_none env opts st q hf).2,
    (query_snd_fields env opts st q).2.1⟩, fun hstop => ⟨?_, ?_⟩⟩
  · exact queryLoop_fetchTrace_nostop env opts eventName hstop l st
  · intro hnd hq
    rw [queryLoop_fetchTrace_nostop env opts eventName hstop l st,
      List.count_append, List.count_eq_zero.mpr hq]
    by_cases hmem : q ∈ l
    · rw [if_pos hmem, List.count_eq_one_of_mem hnd hmem]
    · rw [if_neg hmem, List.count_eq_zero.mpr hmem]

theorem c6_transient_fetch_failure_witness :
    ((query envC2 optsDemo initState "10.0.0.9").1 = none ∧
     ((query envC2 optsDemo initState "10.0.0.9").2).errorState
        = initState.errorState ∧
     ((query envC2 optsDemo initState "10.0.0.9").2).emitted
        = initState.emitted) ∧
    ((∀ k, envC2.checkForStop k = false) →
      (queryLoop envC2 optsDemo "IP_ADDRESS" initState
          ["10.0.0.9", "10.0.0.8"]).fetchTrace
        = initState.fetchTrace ++ ["10.0.0.9", "10.0.0.8"] ∧
      ((["10.0.0.9", "10.0.0.8"] : List String).Nodup →
        "10.0.0.9" ∉ initState.fetchTrace →
        (queryLoop envC2 optsDemo "IP_ADDRESS" initState
            ["10.0.0.9", "10.0.0.8"]).fetchTrace.count "10.0.0.9"
          = if "10.0.0.9" ∈ (["10.0.0.9", "10.0.0.8"] : List String)
            then 1 else 0)) :=
  c6_transient_fetch_failure envC2 optsDemo initState "10.0.0.9" "IP_ADDRESS"
    ["10.0.0.9", "10.0.0.8"] (by decide)

/-- C7: every call to query performs exactly one fetch (the trace grows by
exactly the queried value, whatever the fetch outcome), sleeps once when
publicapi is set, and a full loop over a query list performs one fetch and,
under publicapi, one sleep per value. -/
theorem c7_one_fetch_one_delay (env : Env) (opts : Opts) (st : PluginState)
    (q : String) (eventName : String) (l : List String) :
    ((query env opts st q).2).fetchTrace = st.fetchTrace ++ [q] ∧
    (opts.publicapi = true → ((query env opts st q).2).slept = st.slept + 1) ∧
    ((∀ k, env.checkForStop k = false) →
      (queryLoop env opts eventName st l).fetchTrace = st.fetchTrace ++ l ∧
      (opts.publicapi = true →
        (queryLoop env opts eventName st l).slept = st.slept + l.length)) := by
  refine ⟨(query_snd_fields env opts st q).2.2.2.1, fun hb => ?_,
    fun hstop => ⟨queryLoop_fetchTrace_nostop env opts eventName hstop l st,
      fun hb => ?_⟩⟩
  · rw [(query_snd_fields env opts st q).2.2.2.2, hb, if_pos rfl]
  · rw [queryLoop_slept_nostop env opts eventName hstop l st, hb, if_pos rfl]

theorem c7_one_fetch_one_delay_witness :
    ((query envC2 optsDemo initState "10.0.0.1").2).fetchTrace
        = initState.fetchTrace ++ ["10.0.0.1"] ∧
    (optsDemo.publicapi = true →
      ((query envC2 optsDemo initState "10.0.0.1").2).slept
        = initState.slept + 1) ∧
    ((∀ k, envC2.checkForStop k = false) →
      (queryLoop envC2 optsDemo "IP_ADDRESS" initState
          ["10.0.0.1", "10.0.0.2"]).fetchTrace
        = initState.fetchTrace ++ ["10.0.0.1", "10.0.0.2"] ∧
      (optsDemo.publicapi = true →
        (queryLoop envC2 optsDemo "IP_ADDRESS" initState
            ["10.0.0.1", "10.0.0.2"]).slept
          = initState.slept + (["10.0.0.1", "10.0.0.2"] : List String).length)) :=
  c7_one_fetch_one_delay envC2 optsDemo initState "10.0.0.1" "IP_ADDRESS"
    ["10.0.0.1", "10.0.0.2"]


/-- C5: a NETBLOCK_OWNER (resp. NETBLOCK_MEMBER) event whose prefix length
is strictly below maxnetblock (resp. maxsubnet) is rejected: the only state
change is the event data entering the seen-set, with no fetch and no
emission; a block whose prefix length is at least the maximum is processed:
every member address of the block is fetched. -/
theorem c5_netblock_size_gate (env : Env) (opts : Opts) (st : PluginState)
    (ev : SFEvent)
    (h1 : st.errorState = false) (h2 : opts.api_key ≠ "")
    (h3 : ev.data ∉ st.results)
    (hstop : ∀ k, env.checkForStop k = false) :
    (ev.eventType = "NETBLOCK_OWNER" → opts.netblocklookup = true →
      (env.prefixlen ev.data < opts.maxnetblock →
        handleEvent env opts st ev
          = { st with results := st.results ++ [ev.data] }) ∧
      (opts.maxnetblock ≤ env.prefixlen ev.data →
        (handleEvent env opts st ev).fetchTrace
          = st.fetchTrace ++ env.netMembers ev.data)) ∧
    (ev.eventType = "NETBLOCK_MEMBER" → opts.subnetlookup = true →
      (env.prefixlen ev.data < opts.maxsubnet →
        handleEvent env opts st ev
          = { st with results := st.results ++ [ev.data] }) ∧
      (opts.maxsubnet ≤ env.prefixlen ev.data →
        (handleEvent env opts st ev).fetchTrace
          = st.fetchTrace ++ env.netMembers ev.data)) := by
  constructor
  · intro hn hlk
    constructor
    · intro hsz
      exact handleEvent_netblock_rejected env opts st ev h1 h2 h3
        (Or.inl ⟨hn, hlk, hsz⟩)
    · intro hsz
      rw [handleEvent_netblock_run env opts st ev h1 h2 h3
        (Or.inl ⟨hn, hlk, hsz⟩),
        queryLoop_fetchTrace_nostop env opts ev.eventType hstop]
  · intro hn hlk
    constructor
    · intro hsz
      exact handleEvent_netblock_rejected env opts st ev h1 h2 h3
        (Or.inr ⟨hn, hlk, hsz⟩)
    · intro hsz
      rw [handleEvent_netblock_run env opts st ev h1 h2 h3
        (Or.inr ⟨hn, hlk, hsz⟩),
        queryLoop_fetchTrace_nostop env opts ev.eventType hstop]

theorem c5_netblock_size_gate_witness :
    (SFEvent.eventType ⟨"NETBLOCK_OWNER", "10.0.0.0/30"⟩ = "NETBLOCK_OWNER" →
      optsDemo.netblocklookup = true →
      (envC1.prefixlen "10.0.0.0/30" < optsDemo.maxnetblock →
        handleEvent envC1 optsDemo initState ⟨"NETBLOCK_OWNER", "10.0.0.0/30"⟩
          = { initState with results := initState.results ++ ["10.0.0.0/30"] }) ∧
      (optsDemo.maxnetblock ≤ envC1.prefixlen "10.0.0.0/30" →
        (handleEvent envC1 optsDemo initState
            ⟨"NETBLOCK_OWNER", "10.0.0.0/30"⟩).fetchTrace
          = initState.fetchTrace ++ envC1.netMembers "10.0.0.0/30")) ∧
    (SFEvent.eventType ⟨"NETBLOCK_OWNER", "10.0.0.0/30"⟩ = "NETBLOCK_MEMBER" →
      optsDemo.subnetlookup = true →
      (envC1.prefixlen "10.0.0.0/30" < optsDemo.maxsubnet →
        handleEvent envC1 optsDemo initState ⟨"NETBLOCK_OWNER", "10.0.0.0/30"⟩
          = { initState with results := initState.results ++ ["10.0.0.0/30"] }) ∧
      (optsDemo.maxsubnet ≤ envC1.prefixlen "10.0.0.0/30" →
        (handleEvent envC1 optsDemo initState
            ⟨"NETBLOCK_OWNER", "10.0.0.0/30"⟩).fetchTrace
          = initState.fetchTrace ++ envC1.netMembers "10.0.0.0/30")) :=
  c5_netblock_size_gate envC1 optsDemo initState
    ⟨"NETBLOCK_OWNER", "10.0.0.0/30"⟩ rfl (by decide) (by decide)
    (fun _ => rfl)

/-- C9: for an accepted netblock event every member address of the block is
in the seen-set of the resulting state, whatever the stop signal and fetch
outcomes were, and any later event whose data is already in the seen-set is
skipped with no state change. -/
theorem c9_netblock_members_preseeded (env : Env) (opts : Opts)
    (st : PluginState) (ev : SFEvent)
    (h1 : st.errorState = false) (h2 : opts.api_key ≠ "")
    (h3 : ev.data ∉ st.results)
    (h : (ev.eventType = "NETBLOCK_OWNER" ∧ opts.netblocklookup = true ∧
            opts.maxnetblock ≤ env.prefixlen ev.data) ∨
         (ev.eventType = "NETBLOCK_MEMBER" ∧ opts.subnetlookup = true ∧
            opts.maxsubnet ≤ env.prefixlen ev.data)) :
    (∀ m ∈ env.netMembers ev.data, m ∈ (handleEvent env opts st ev).results) ∧
    (∀ (st2 : PluginState) (ev2 : SFEvent), st2.errorState = false →
      ev2.data ∈ st2.results → handleEvent env opts st2 ev2 = st2) := by
  constructor
  · intro m hm
    rw [handleEvent_netblock_run env opts st ev h1 h2 h3 h, queryLoop_results]
    exact List.mem_append.2 (Or.inr hm)
  · intro st2 ev2 he hseen
    exact handleEvent_of_seen env opts st2 ev2 he h2 hseen

theorem c9_netblock_members_preseeded_witness :
    (∀ m ∈ envC2.netMembers "10.0.0.0/30",
      m ∈ (handleEvent envC2 optsDemo initState
        ⟨"NETBLOCK_OWNER", "10.0.0.0/30"⟩).results) ∧
    (∀ (st2 : PluginState) (ev2 : SFEvent), st2.errorState = false →
      ev2.data ∈ st2.results → handleEvent envC2 optsDemo st2 ev2 = st2) :=
  c9_netblock_members_preseeded envC2 optsDemo initState
    ⟨"NETBLOCK_OWNER", "10.0.0.0/30"⟩ rfl (by decide) (by decide)
    (Or.inl ⟨rfl, rfl, by decide⟩)


/-- C8: under the verify option, a sibling that matches the target and is
not in the seen-set yields INTERNET_NAME when it resolves and
INTERNET_NAME_UNRESOLVED when it does not, plus DOMAIN_NAME when it is a
registered domain; a non-matching sibling not in the seen-set yields
AFFILIATE_INTERNET_NAME; a sibling already in the seen-set yields nothing;
and for an IP_ADDRESS or INTERNET_NAME input whose parsed response carries a
domain_siblings list (and nothing else), the loop iteration is exactly the
sibling fold. -/
theorem c8_domain_siblings (env : Env) (opts : Opts) (st : PluginState)
    (s addr c : String) (info : VTInfo) (eventName : String)
    (sibs : List String) (hv : opts.verify = true) :
    (env.targetMatches s = true → s ∉ st.results →
      (processSibling env opts st s).emitted = st.emitted
        ++ (if env.resolveHost s then ([⟨"INTERNET_NAME", s⟩] : List SFEvent)
            else [⟨"INTERNET_NAME_UNRESOLVED", s⟩])
        ++ (if env.isDomain s then [⟨"DOMAIN_NAME", s⟩] else [])) ∧
    (env.targetMatches s = false → s ∉ st.results →
      (processSibling env opts st s).emitted
        = st.emitted ++ [⟨"AFFILIATE_INTERNET_NAME", s⟩]) ∧
    (s ∈ st.results → processSibling env opts st s = st) ∧
    (eventName ∈ ["IP_ADDRESS", "INTERNET_NAME"] →
      env.fetchContent addr = some c → env.parseJSON c = some info →
      info.detected_urls = [] → info.domain_siblings = some sibs →
      info.subdomains = none →
      processAddr env opts eventName st addr
        = sibs.foldl (processSibling env opts)
            { st with fetchTrace := st.fetchTrace ++ [addr],
                      slept := st.slept
                        + (if opts.publicapi then 1 else 0) }) := by
  refine ⟨fun ht hs => ?_, fun ht hs => ?_, fun hs => ?_,
    fun hmem hf hp hd0 hsib hsubn => ?_⟩
  · cases hr : env.resolveHost s <;> cases hd : env.isDomain s <;>
      simp [processSibling_eq, siblingEvents, ht, hs, hv, hr, hd]
  · cases hd : env.isDomain s <;>
      simp [processSibling_eq, siblingEvents, ht, hs, hv, hd]
  · cases ht : env.targetMatches s <;>
      simp [processSibling_eq, siblingEvents, hs, ht]
  · rw [processAddr_eq_of_ok env opts eventName st addr c info hf hp,
      siblingFold_eq]
    simp [malEvents, hd0, sibEventsAll, hsib, hmem, subEventsAll, hsubn]

/-- C10: for a subdomain not in the seen-set, with verify on a resolving
subdomain yields no hostname event at all (only DOMAIN_NAME when
registered), a non-resolving one yields INTERNET_NAME_UNRESOLVED;
INTERNET_NAME is emitted only with verify off; and for an INTERNET_NAME
input whose parsed response carries a subdomains list (and nothing else),
the loop iteration is exactly the subdomain fold. -/
theorem c10_subdomain_verify_gating (env : Env) (opts : Opts)
    (st : PluginState) (n addr c : String) (info : VTInfo)
    (eventName : String) (subs : List String) (hn : n ∉ st.results) :
    (opts.verify = true → env.resolveHost n = true →
      (processSubdomain env opts st n).emitted
        = st.emitted ++ (if env.isDomain n then [⟨"DOMAIN_NAME", n⟩] else [])) ∧
    (opts.verify = true → env.resolveHost n = false →
      (processSubdomain env opts st n).emitted
        = st.emitted ++ ([⟨"INTERNET_NAME_UNRESOLVED", n⟩] : List SFEvent)
          ++ (if env.isDomain n then [⟨"DOMAIN_NAME", n⟩] else [])) ∧
    (opts.verify = false →
      (processSubdomain env opts st n).emitted
        = st.emitted ++ ([⟨"INTERNET_NAME", n⟩] : List SFEvent)
          ++ (if env.isDomain n then [⟨"DOMAIN_NAME", n⟩] else [])) ∧
    (eventName = "INTERNET_NAME" →
      env.fetchContent addr = some c → env.parseJSON c = some info →
      info.detected_urls = [] → info.domain_siblings = none →
      info.subdomains = some subs →
      processAddr env opts eventName st addr
        = subs.foldl (processSubdomain env opts)
            { st with fetchTrace := st.fetchTrace ++ [addr],
                      slept := st.slept
                        + (if opts.publicapi then 1 else 0) }) := by
  refine ⟨fun hv hr => ?_, fun hv hr => ?_, fun hv => ?_,
    fun hname hf hp hd0 hsibn hsub => ?_⟩
  · cases hd : env.isDomain n <;>
      simp [processSubdomain_eq, subdomainEvents, hn, hv, hr, hd]
  · cases hd : env.isDomain n <;>
      simp [processSubdomain_eq, subdomainEvents, hn, hv, hr, hd]
  · cases hd : env.isDomain n <;>
      simp [processSubdomain_eq, subdomainEvents, hn, hv, hd]
  · rw [processAddr_eq_of_ok env opts eventName st addr c info hf hp,
      subdomainFold_eq]
    simp [malEvents, hd0, sibEventsAll, hsibn, subEventsAll, hsub, hname]


theorem c8_domain_siblings_witness :
    (envC1.targetMatches "sib" = true → "sib" ∉ initState.results →
      (processSibling envC1 optsDemo initState "sib").emitted
        = initState.emitted
        ++ (if envC1.resolveHost "sib"
            then ([⟨"INTERNET_NAME", "sib"⟩] : List SFEvent)
            else [⟨"INTERNET_NAME_UNRESOLVED", "sib"⟩])
        ++ (if envC1.isDomain "sib" then [⟨"DOMAIN_NAME", "sib"⟩] else [])) ∧
    (envC1.targetMatches "sib" = false → "sib" ∉ initState.results →
      (processSibling envC1 optsDemo initState "sib").emitted
        = initState.emitted ++ [⟨"AFFILIATE_INTERNET_NAME", "sib"⟩]) ∧
    ("sib" ∈ initState.results →
      processSibling envC1 optsDemo initState "sib" = initState) ∧
    ("IP_ADDRESS" ∈ ["IP_ADDRESS", "INTERNET_NAME"] →
      envC1.fetchContent "10.0.0.1" = some "j" →
      envC1.parseJSON "j" = some ⟨["u"], some ["sib"], none⟩ →
      VTInfo.detected_urls ⟨["u"], some ["sib"], none⟩ = [] →
      VTInfo.domain_siblings ⟨["u"], some ["sib"], none⟩ = some ["sib"] →
      VTInfo.subdomains ⟨["u"], some ["sib"], none⟩ = none →
      processAddr envC1 optsDemo "IP_ADDRESS" initState "10.0.0.1"
        = (["sib"] : List String).foldl (processSibling envC1 optsDemo)
            { initState with
                fetchTrace := initState.fetchTrace ++ ["10.0.0.1"],
                slept := initState.slept
                  + (if optsDemo.publicapi then 1 else 0) }) :=
  c8_domain_siblings envC1 optsDemo initState "sib" "10.0.0.1" "j"
    ⟨["u"], some ["sib"], none⟩ "IP_ADDRESS" ["sib"] rfl

theorem c10_subdomain_verify_gating_witness :
    (optsDemo.verify = true → envC1.resolveHost "sub" = true →
      (processSubdomain envC1 optsDemo initState "sub").emitted
        = initState.emitted
          ++ (if envC1.isDomain "sub" then [⟨"DOMAIN_NAME", "sub"⟩] else [])) ∧
    (optsDemo.verify = true → envC1.resolveHost "sub" = false →
      (processSubdomain envC1 optsDemo initState "sub").emitted
        = initState.emitted
          ++ ([⟨"INTERNET_NAME_UNRESOLVED", "sub"⟩] : List SFEvent)
          ++ (if envC1.isDomain "sub" then [⟨"DOMAIN_NAME", "sub"⟩] else [])) ∧
    (optsDemo.verify = false →
      (processSubdomain envC1 optsDemo initState "sub").emitted
        = initState.emitted ++ ([⟨"INTERNET_NAME", "sub"⟩] : List SFEvent)
          ++ (if envC1.isDomain "sub" then [⟨"DOMAIN_NAME", "sub"⟩] else [])) ∧
    ("INTERNET_NAME" = "INTERNET_NAME" →
      envC1.fetchContent "10.0.0.1" = some "j" →
      envC1.parseJSON "j" = some ⟨["u"], none, some ["sub"]⟩ →
      VTInfo.detected_urls ⟨["u"], none, some ["sub"]⟩ = [] →
      VTInfo.domain_siblings ⟨["u"], none, some ["sub"]⟩ = none →
      VTInfo.subdomains ⟨["u"], none, some ["sub"]⟩ = some ["sub"] →
      processAddr envC1 optsDemo "INTERNET_NAME" initState "10.0.0.1"
        = (["sub"] : List String).foldl (processSubdomain envC1 optsDemo)
            { initState with
                fetchTrace := initState.fetchTrace ++ ["10.0.0.1"],
                slept := initState.slept
                  + (if optsDemo.publicapi then 1 else 0) }) :=
  c10_subdomain_verify_gating envC1 optsDemo initState "sub" "10.0.0.1" "j"
    ⟨["u"], none, some ["sub"]⟩ "INTERNET_NAME" ["sub"] (by decide)


lemma handleEvent_guard_return (env : Env) (opts : Opts) (st : PluginState)
    (ev : SFEvent)
    (h1 : st.errorState = false) (h2 : opts.api_key ≠ "")
    (h3 : ev.data ∉ st.results)
    (h : (strStartsWith ev.eventType "AFFILIATE" = true ∧
            opts.checkaffiliates = false) ∨
         (ev.eventType = "CO_HOSTED_SITE" ∧ opts.checkcohosts = false) ∨
         (ev.eventType = "NETBLOCK_OWNER" ∧ opts.netblocklookup = false) ∨
         (ev.eventType = "NETBLOCK_OWNER" ∧
            env.prefixlen ev.data < opts.maxnetblock) ∨
         (ev.eventType = "NETBLOCK_MEMBER" ∧ opts.subnetlookup = false) ∨
         (ev.eventType = "NETBLOCK_MEMBER" ∧
            env.prefixlen ev.data < opts.maxsubnet)) :
    handleEvent env opts st ev
      = { st with results := st.results ++ [ev.data] } := by
  unfold handleEvent
  rcases h with ⟨ha, hb⟩ | ⟨ha, hb⟩ | ⟨ha, hb⟩ | ⟨ha, hb⟩ | ⟨ha, hb⟩ | ⟨ha, hb⟩
  · simp +decide [h1, h2, h3, ha, hb]
  · simp +decide [h1, h2, h3, ha, hb]
  · simp +decide [h1, h2, h3, ha, hb]
  · by_cases hlk : opts.netblocklookup = true
    · simp +decide [h1, h2, h3, ha, hb, hlk]
    · simp +decide [h1, h2, h3, ha, hb, hlk]
  · simp +decide [h1, h2, h3, ha, hb]
  · by_cases hlk : opts.subnetlookup = true
    · simp +decide [h1, h2, h3, ha, hb, hlk]
    · simp +decide [h1, h2, h3, ha, hb, hlk]

lemma handleEvent_fallthrough (env : Env) (opts : Opts) (st : PluginState)
    (ev : SFEvent)
    (h1 : st.errorState = false) (h2 : opts.api_key ≠ "")
    (h3 : ev.data ∉ st.results)
    (g1 : ¬(strStartsWith ev.eventType "AFFILIATE" = true ∧
            opts.checkaffiliates = false))
    (g2 : ¬(ev.eventType = "CO_HOSTED_SITE" ∧ opts.checkcohosts = false))
    (g3 : ¬(ev.eventType = "NETBLOCK_OWNER" ∧ opts.netblocklookup = false))
    (g4 : ¬(ev.eventType = "NETBLOCK_OWNER" ∧
            env.prefixlen ev.data < opts.maxnetblock))
    (g5 : ¬(ev.eventType = "NETBLOCK_MEMBER" ∧ opts.subnetlookup = false))
    (g6 : ¬(ev.eventType = "NETBLOCK_MEMBER" ∧
            env.prefixlen ev.data < opts.maxsubnet)) :
    handleEvent env opts st ev
      = queryLoop env opts ev.eventType
          (if strStartsWith ev.eventType "NETBLOCK_" then
            { st with results :=
                st.results ++ [ev.data] ++ env.netMembers ev.data }
           else { st with results := st.results ++ [ev.data] })
          (if strStartsWith ev.eventType "NETBLOCK_" then
            env.netMembers ev.data
           else [ev.data]) := by
  unfold handleEvent
  simp [h1, h2, h3, g1, g2, g3, g4, g5, g6]

lemma handleEvent_emitted_types (env : Env) (opts : Opts) (st : PluginState)
    (ev : SFEvent) :
    ∀ e ∈ (handleEvent env opts st ev).emitted,
      e ∈ st.emitted ∨ e.eventType ∈ allowedEmitTypes := by
  intro e he
  by_cases h1 : st.errorState = true
  · rw [handleEvent_of_errorState env opts st ev h1] at he
    exact Or.inl he
  rw [Bool.not_eq_true] at h1
  by_cases h2 : opts.api_key = ""
  · rw [handleEvent_of_empty_key env opts st ev h1 h2] at he
    exact Or.inl he
  by_cases h3 : ev.data ∈ st.results
  · rw [handleEvent_of_seen env opts st ev h1 h2 h3] at he
    exact Or.inl he
  by_cases ga : strStartsWith ev.eventType "AFFILIATE" = true ∧
      opts.checkaffiliates = false
  · rw [handleEvent_guard_return env opts st ev h1 h2 h3 (Or.inl ga)] at he
    exact Or.inl he
  by_cases gb : ev.eventType = "CO_HOSTED_SITE" ∧ opts.checkcohosts = false
  · rw [handleEvent_guard_return env opts st ev h1 h2 h3
      (Or.inr (Or.inl gb))] at he
    exact Or.inl he
  by_cases gc : ev.eventType = "NETBLOCK_OWNER" ∧ opts.netblocklookup = false
  · rw [handleEvent_guard_return env opts st ev h1 h2 h3
      (Or.inr (Or.inr (Or.inl gc)))] at he
    exact Or.inl he
  by_cases gd : ev.eventType = "NETBLOCK_OWNER" ∧
      env.prefixlen ev.data < opts.maxnetblock
  · rw [handleEvent_guard_return env opts st ev h1 h2 h3
      (Or.inr (Or.inr (Or.inr (Or.inl gd))))] at he
    exact Or.inl he
  by_cases ge : ev.eventType = "NETBLOCK_MEMBER" ∧ opts.subnetlookup = false
  · rw [handleEvent_guard_return env opts st ev h1 h2 h3
      (Or.inr (Or.inr (Or.inr (Or.inr (Or.inl ge)))))] at he
    exact Or.inl he
  by_cases gf : ev.eventType = "NETBLOCK_MEMBER" ∧
      env.prefixlen ev.data < opts.maxsubnet
  · rw [handleEvent_guard_return env opts st ev h1 h2 h3
      (Or.inr (Or.inr (Or.inr (Or.inr (Or.inr gf)))))] at he
    exact Or.inl he
  rw [handleEvent_fallthrough env opts st ev h1 h2 h3 ga gb gc gd ge gf] at he
  by_cases hnb : strStartsWith ev.eventType "NETBLOCK_" = true
  · rw [if_pos hnb, if_pos hnb] at he
    rcases queryLoop_emitted_types env opts ev.eventType _ _ e he with h | h
    · exact Or.inl h
    · exact Or.inr h
  · rw [if_neg hnb, if_neg hnb] at he
    rcases queryLoop_emitted_types env opts ev.eventType _ _ e he with h | h
    · exact Or.inl h
    · exact Or.inr h


lemma malEvents_of_detected (eventName addr : String) (info : VTInfo)
    (hd : info.detected_urls ≠ []) (evt it : String)
    (hm : maliciousEvt eventName = some (evt, it)) :
    malEvents eventName addr info = [⟨evt, vtMsg it addr⟩] := by
  unfold malEvents
  rw [hm]
  simp [List.length_pos.mpr hd]

lemma queryLoop_singleton (env : Env) (opts : Opts) (eventName : String)
    (st : PluginState) (addr : String)
    (hstop : env.checkForStop st.tick = false) :
    queryLoop env opts eventName st [addr]
      = processAddr env opts eventName { st with tick := st.tick + 1 } addr := by
  unfold queryLoop
  rw [if_neg (by simp [hstop])]
  rfl

/-- C1 is false as stated: a NETBLOCK_OWNER input whose member has a
detected URL yields a MALICIOUS_IPADDR event, not MALICIOUS_NETBLOCK,
although MALICIOUS_NETBLOCK is listed in producedEvents. -/
theorem c1_counterexample :
    (handleEvent envC1 optsDemo initState
        ⟨"NETBLOCK_OWNER", "10.0.0.0/30"⟩).emitted.map SFEvent.eventType
      = ["MALICIOUS_IPADDR"] ∧
    "MALICIOUS_NETBLOCK" ∈ producedEvents ∧
    "MALICIOUS_NETBLOCK" ∉ (handleEvent envC1 optsDemo initState
        ⟨"NETBLOCK_OWNER", "10.0.0.0/30"⟩).emitted.map SFEvent.eventType := by
  decide

/-- C1 (amended): the if-chain maps IP_ADDRESS and both NETBLOCK_* input
types to MALICIOUS_IPADDR and the other four watched types to their
documented malicious categories; a single-value input whose response has a
non-empty detected_urls list emits exactly one malicious-indicator event of
the mapped type; MALICIOUS_NETBLOCK and MALICIOUS_SUBNET are listed in
producedEvents but are never emitted. -/
theorem c1_malicious_mapping (env : Env) (opts : Opts) (st : PluginState)
    (ev : SFEvent) (c : String) (info : VTInfo)
    (h1 : st.errorState = false) (h2 : opts.api_key ≠ "")
    (h3 : ev.data ∉ st.results)
    (haff : opts.checkaffiliates = true) (hco : opts.checkcohosts = true)
    (hstop : env.checkForStop st.tick = false)
    (hf : env.fetchContent ev.data = some c)
    (hp : env.parseJSON c = some info)
    (hd : info.detected_urls ≠ []) :
    (maliciousEvt "IP_ADDRESS" = some ("MALICIOUS_IPADDR", "ip-address") ∧
     maliciousEvt "NETBLOCK_OWNER" = some ("MALICIOUS_IPADDR", "ip-address") ∧
     maliciousEvt "NETBLOCK_MEMBER" = some ("MALICIOUS_IPADDR", "ip-address") ∧
     maliciousEvt "AFFILIATE_IPADDR"
        = some ("MALICIOUS_AFFILIATE_IPADDR", "ip-address") ∧
     maliciousEvt "INTERNET_NAME"
        = some ("MALICIOUS_INTERNET_NAME", "domain") ∧
     maliciousEvt "AFFILIATE_INTERNET_NAME"
        = some ("MALICIOUS_AFFILIATE_INTERNET_NAME", "domain") ∧
     maliciousEvt "CO_HOSTED_SITE" = some ("MALICIOUS_COHOST", "domain") ∧
     "MALICIOUS_NETBLOCK" ∈ producedEvents ∧
     "MALICIOUS_SUBNET" ∈ producedEvents) ∧
    (∀ evt it, ev.eventType ∈ ["IP_ADDRESS", "AFFILIATE_IPADDR",
        "INTERNET_NAME", "AFFILIATE_INTERNET_NAME", "CO_HOSTED_SITE"] →
      maliciousEvt ev.eventType = some (evt, it) →
      ((handleEvent env opts st ev).emitted).filter isMalicious
        = st.emitted.filter isMalicious ++ [⟨evt, vtMsg it ev.data⟩]) ∧
    (∀ e ∈ (handleEvent env opts st ev).emitted, e ∈ st.emitted ∨
      (e.eventType ≠ "MALICIOUS_NETBLOCK" ∧
       e.eventType ≠ "MALICIOUS_SUBNET")) := by
  refine ⟨by decide, fun evt it hmem hm => ?_, fun e he => ?_⟩
  · rw [handleEvent_single_run env opts st ev h1 h2 h3 haff hco hmem,
      queryLoop_singleton env opts ev.eventType
        { st with results := st.results ++ [ev.data] } ev.data hstop,
      processAddr_filter_malicious_of_ok env opts ev.eventType
        { st with results := st.results ++ [ev.data], tick := st.tick + 1 }
        ev.data c info hf hp,
      malEvents_of_detected ev.eventType ev.data info hd evt it hm]
  · rcases handleEvent_emitted_types env opts st ev e he with h | h
    · exact Or.inl h
    · refine Or.inr ⟨?_, ?_⟩ <;> intro heq <;> rw [heq] at h <;>
        revert h <;> decide

theorem c1_malicious_mapping_witness :
    (maliciousEvt "IP_ADDRESS" = some ("MALICIOUS_IPADDR", "ip-address") ∧
     maliciousEvt "NETBLOCK_OWNER" = some ("MALICIOUS_IPADDR", "ip-address") ∧
     maliciousEvt "NETBLOCK_MEMBER" = some ("MALICIOUS_IPADDR", "ip-address") ∧
     maliciousEvt "AFFILIATE_IPADDR"
        = some ("MALICIOUS_AFFILIATE_IPADDR", "ip-address") ∧
     maliciousEvt "INTERNET_NAME"
        = some ("MALICIOUS_INTERNET_NAME", "domain") ∧
     maliciousEvt "AFFILIATE_INTERNET_NAME"
        = some ("MALICIOUS_AFFILIATE_INTERNET_NAME", "domain") ∧
     maliciousEvt "CO_HOSTED_SITE" = some ("MALICIOUS_COHOST", "domain") ∧
     "MALICIOUS_NETBLOCK" ∈ producedEvents ∧
     "MALICIOUS_SUBNET" ∈ producedEvents) ∧
    (∀ evt it,
      (⟨"IP_ADDRESS", "10.0.0.1"⟩ : SFEvent).eventType
        ∈ ["IP_ADDRESS", "AFFILIATE_IPADDR", "INTERNET_NAME",
           "AFFILIATE_INTERNET_NAME", "CO_HOSTED_SITE"] →
      maliciousEvt (⟨"IP_ADDRESS", "10.0.0.1"⟩ : SFEvent).eventType
          = some (evt, it) →
      ((handleEvent envC1 optsDemo initState
          ⟨"IP_ADDRESS", "10.0.0.1"⟩).emitted).filter isMalicious
        = initState.emitted.filter isMalicious
          ++ [⟨evt, vtMsg it (⟨"IP_ADDRESS", "10.0.0.1"⟩ : SFEvent).data⟩]) ∧
    (∀ e ∈ (handleEvent envC1 optsDemo initState
        ⟨"IP_ADDRESS", "10.0.0.1"⟩).emitted,
      e ∈ initState.emitted ∨
        (e.eventType ≠ "MALICIOUS_NETBLOCK" ∧
         e.eventType ≠ "MALICIOUS_SUBNET")) :=
  c1_malicious_mapping envC1 optsDemo initState ⟨"IP_ADDRESS", "10.0.0.1"⟩
    "j" ⟨["u"], none, none⟩ rfl (by decide) (by decide) rfl rfl rfl
    (by decide) (by decide) (by decide)

end SfpVirustotal
